import Mathlib

/-!
Shallow embedding of `cairocffi/fonts.py`: the font-related bindings of
cairocffi over the foreign cairo library.

Foreign handles (`cairo_font_face_t *`, `cairo_scaled_font_t *`,
`cairo_font_options_t *`) are modelled as natural numbers, with `0` as the
null sentinel (`ffi.NULL`).  The foreign cairo library itself is external to
the repository; its calls are modelled abstractly by a `CairoModel` record of
uninterpreted functions (for queries and shaping) and, for font options, by
an explicit heap of option states, since the behaviour of the binding (what it
passes, in which order it attaches guards and checks statuses, what it
copies) is what the claims are about.

Every binding operation additionally returns a trace of `Ev` events
recording, in order, the foreign calls it makes (tagged with whether they
mutate), the `ffi.gc` deallocator-guard attachments, and the status checks.

Doubles (`x`, `y` glyph positions, extents) are carried through the binding
unchanged, so they are modelled as integers.
-/

/-- The null sentinel `ffi.NULL` for foreign handles. -/
def NULL : Nat := 0

/-- The cairo success status `CAIRO_STATUS_SUCCESS`. -/
def STATUS_SUCCESS : Nat := 0

/-- The cairo font type tag `CAIRO_FONT_TYPE_TOY` (value from the cairo
enumeration mirrored by `cairocffi.constants`). -/
def FONT_TYPE_TOY : Nat := 0

/-- Antialias enumeration values from `cairocffi.constants`, mirroring the
cairo `cairo_antialias_t` enumeration. -/
def ANTIALIAS_DEFAULT : Nat := 0

/-- The `ANTIALIAS_GOOD` enumeration value. -/
def ANTIALIAS_GOOD : Nat := 5

/-- The `ANTIALIAS_BEST` enumeration value. -/
def ANTIALIAS_BEST : Nat := 6

/-- The default (unset) subpixel-order value `SUBPIXEL_ORDER_DEFAULT`. -/
def SUBPIXEL_ORDER_DEFAULT : Nat := 0

/-- The default (unset) hint-style value `HINT_STYLE_DEFAULT`. -/
def HINT_STYLE_DEFAULT : Nat := 0

/-- The default (unset) hint-metrics value `HINT_METRICS_DEFAULT`. -/
def HINT_METRICS_DEFAULT : Nat := 0

/-- UTF-8 bytes of a Python string, as natural numbers (Python
`s.encode("utf8")`). -/
def utf8Bytes (s : String) : List Nat :=
  (String.toUTF8 s).data.toList.map (fun b => b.toNat)

/-- A Python text argument: either a Unicode string or a byte string. -/
inductive PyText where
  | str (s : String)
  | bytes (b : List Nat)
deriving DecidableEq

/-- Embedding of `_encode_string` (fonts.py): return a byte string, encoding
Unicode with UTF-8; byte strings are forwarded unchanged.  (The `ffi.new`
char-array allocation additionally NUL-terminates the buffer; consumers of
the buffer see that through `cString` below.) -/
def _encode_string : PyText → List Nat
  | PyText.str s => utf8Bytes s
  | PyText.bytes b => b

/-- The bytes a foreign function reading a NUL-terminated C string actually
consumes: everything before the first 0 byte. -/
def cString (bytes : List Nat) : List Nat :=
  bytes.takeWhile (fun b => b != 0)

/-- Python-level errors raised by the binding: `ValueError` (the
`NullHandleError` of the design) and the status-derived cairo error
(`ForeignStatusError`), raised by `_check_status` for a non-success code. -/
inductive PyError where
  | valueError (msg : String)
  | cairoError (status : Nat)
deriving DecidableEq

/-- Embedding of `cairocffi._check_status`: the success sentinel passes
silently, every other status code raises a status-derived error. -/
def _check_status (status : Nat) : Except PyError Unit :=
  if status = STATUS_SUCCESS then Except.ok () else
    Except.error (PyError.cairoError status)

/-- One observable event of a binding operation: a foreign call (tagged with
whether it mutates its target or writes through an out-pointer), an `ffi.gc`
deallocator-guard attachment, or a status check. -/
inductive Ev where
  | call (name : String) (mutates : Bool)
  | attachGuard (dealloc : String)
  | check (status : Nat)
deriving DecidableEq

/-- Whether an event is a status check. -/
def Ev.isCheck : Ev → Bool
  | Ev.check _ => true
  | _ => false

/-- Whether every mutating foreign call in a trace is followed (before the
operation returns) by a status check. -/
def allMutatingChecked : List Ev → Bool
  | [] => true
  | Ev.call _ true :: rest => (rest.any Ev.isCheck) && allMutatingChecked rest
  | _ :: rest => allMutatingChecked rest

/-- One entry of the foreign glyph array `cairo_glyph_t`:
`{index, x, y}`. -/
structure Glyph where
  index : Nat
  x : Int
  y : Int
deriving DecidableEq

/-- One entry of the foreign cluster array `cairo_text_cluster_t`:
`{num_bytes, num_glyphs}`. -/
structure Cluster where
  num_bytes : Nat
  num_glyphs : Nat
deriving DecidableEq

/-- What one invocation of the foreign shaping call
`cairo_scaled_font_text_to_glyphs` produces: a status, the glyph buffer it
allocated together with the glyph count it wrote, the cluster buffer and
count (meaningful only when clusters were requested), and the cluster
flags. -/
structure ShapeOut where
  status : Nat
  glyphBuf : List Glyph
  numGlyphs : Nat
  clusterBuf : List Cluster
  numClusters : Nat
  clusterFlags : Nat
deriving DecidableEq

/-- Result written by `cairo_scaled_font_text_extents` (and the glyph and
font variants): six doubles, carried through unchanged. -/
structure TextExtents where
  x_bearing : Int
  y_bearing : Int
  width : Int
  height : Int
  x_advance : Int
  y_advance : Int
deriving DecidableEq

/-- The per-handle option state stored by a foreign
`cairo_font_options_t` handle: the four enumerated features exposed by the
binding plus the optional variations string (stored by cairo as a copied
C string).  A value of `0` in an enumerated field is the default/unset
value of that feature. -/
structure FontOptionsState where
  antialias : Nat := ANTIALIAS_DEFAULT
  subpixel_order : Nat := SUBPIXEL_ORDER_DEFAULT
  hint_style : Nat := HINT_STYLE_DEFAULT
  hint_metrics : Nat := HINT_METRICS_DEFAULT
  variations : Option (List Nat) := none
deriving DecidableEq

/-- The foreign heap of font-options handles: `next` is the next fresh
handle, `store` maps every handle to its option state. -/
structure FOHeap where
  next : Nat
  store : Nat → FontOptionsState

/-- Abstract model of the foreign cairo library calls used by the embedded
binding operations (other than the font-options heap, modelled concretely by
`FOHeap`).  Each field is the uninterpreted outcome of the foreign call of
the same name. -/
structure CairoModel where
  cairo_font_face_get_type : Nat → Nat
  cairo_font_face_status : Nat → Nat
  cairo_scaled_font_status : Nat → Nat
  cairo_toy_font_face_create : List Nat → Nat → Nat → Nat
  cairo_scaled_font_text_to_glyphs : Nat → Int → Int → List Nat → Bool → ShapeOut
  cairo_scaled_font_text_extents : Nat → List Nat → TextExtents
  cairo_scaled_font_get_font_options : Nat → FontOptionsState

/-- Classes a wrapped font face can have: the generic base class `FontFace`
or the registered concrete variant `ToyFontFace`. -/
inductive FontFaceClass where
  | fontFace
  | toyFontFace
deriving DecidableEq

/-- Embedding of the `FONT_TYPE_TO_CLASS` dispatch table (fonts.py): the only
registered type tag is `FONT_TYPE_TOY`, mapped to `ToyFontFace`. -/
def FONT_TYPE_TO_CLASS : List (Nat × FontFaceClass) :=
  [(FONT_TYPE_TOY, FontFaceClass.toyFontFace)]

/-- A wrapped `cairo_font_face_t *`: the Python class the wrapper was built
with and the handle it owns. -/
structure FontFace where
  cls : FontFaceClass
  pointer : Nat
deriving DecidableEq

/-- A wrapped `cairo_scaled_font_t *`. -/
structure ScaledFont where
  pointer : Nat
deriving DecidableEq

/-- Embedding of `FontFace._from_pointer`: reject the null sentinel with
`ValueError("Null pointer")` before anything else (in particular before the
reference-count increment); otherwise optionally incref, dispatch on the
foreign type tag through `FONT_TYPE_TO_CLASS` with the base class as
fallback, and run `FontFace.__init__` on the chosen class (attach the
destroy guard, then check the handle status). -/
def FontFace._from_pointer (m : CairoModel) (pointer : Nat) (incref : Bool) :
    List Ev × Except PyError FontFace :=
  if pointer = NULL then
    ([], Except.error (PyError.valueError "Null pointer"))
  else
    let tr0 : List Ev :=
      if incref then [Ev.call "cairo_font_face_reference" true] else []
    let cls := (FONT_TYPE_TO_CLASS.lookup
      (m.cairo_font_face_get_type pointer)).getD FontFaceClass.fontFace
    let st := m.cairo_font_face_status pointer
    (tr0 ++ [Ev.call "cairo_font_face_get_type" false,
             Ev.attachGuard "cairo_font_face_destroy", Ev.check st],
     if st = STATUS_SUCCESS then Except.ok ⟨cls, pointer⟩
     else Except.error (PyError.cairoError st))

/-- Embedding of `ScaledFont._from_pointer`: reject the null sentinel with
`ValueError("Null pointer")` before the reference-count increment; otherwise
optionally incref and run `_init_pointer` (attach the destroy guard, then
check the handle status). -/
def ScaledFont._from_pointer (m : CairoModel) (pointer : Nat) (incref : Bool) :
    List Ev × Except PyError ScaledFont :=
  if pointer = NULL then
    ([], Except.error (PyError.valueError "Null pointer"))
  else
    let tr0 : List Ev :=
      if incref then [Ev.call "cairo_scaled_font_reference" true] else []
    let st := m.cairo_scaled_font_status pointer
    (tr0 ++ [Ev.attachGuard "cairo_scaled_font_destroy", Ev.check st],
     if st = STATUS_SUCCESS then Except.ok ⟨pointer⟩
     else Except.error (PyError.cairoError st))

/-- Embedding of `ToyFontFace.__init__`: create a toy font face from the
encoded family plus slant and weight, then run `FontFace.__init__` on the
fresh handle (attach the destroy guard, check status). -/
def ToyFontFace.init (m : CairoModel) (family : PyText)
    (slant weight : Nat) : List Ev × Except PyError FontFace :=
  let ptr := m.cairo_toy_font_face_create (_encode_string family) slant weight
  let st := m.cairo_font_face_status ptr
  ([Ev.call "cairo_toy_font_face_create" true,
    Ev.attachGuard "cairo_font_face_destroy", Ev.check st],
   if st = STATUS_SUCCESS then Except.ok ⟨FontFaceClass.toyFontFace, ptr⟩
   else Except.error (PyError.cairoError st))

/-- Foreign `cairo_font_options_create`: allocate a fresh handle holding the
default option state.  (Allocation failure, where cairo would hand back a
static no-memory object, is outside this model: allocation always
succeeds.) -/
def cairo_font_options_create (H : FOHeap) : FOHeap × Nat :=
  (⟨H.next + 1,
    fun j => if j = H.next then {} else H.store j⟩, H.next)

/-- Foreign `cairo_font_options_copy`: allocate a fresh handle holding a copy
of the full stored state of `h`. -/
def cairo_font_options_copy (H : FOHeap) (h : Nat) : FOHeap × Nat :=
  (⟨H.next + 1,
    fun j => if j = H.next then H.store h else H.store j⟩, H.next)

/-- Foreign `cairo_font_options_status`: success (the only non-success status
cairo ever stores for font options is out-of-memory at allocation, outside
this model). -/
def cairo_font_options_status (_h : Nat) : Nat :=
  STATUS_SUCCESS

/-- Foreign `cairo_font_options_equal`: compares the full stored states of
the two handles. -/
def cairo_font_options_equal (H : FOHeap) (a b : Nat) : Bool :=
  decide (H.store a = H.store b)

/-- Modelled foreign `cairo_font_options_merge`, per the binding docstring
("Merges non-default options from other, replacing existing values", the
OVER compositing analogy): every field of `other` that is not at its
default/unset value overwrites the corresponding field of `self`; fields of
`other` at their default leave `self` untouched. -/
def mergeState (s o : FontOptionsState) : FontOptionsState :=
  { antialias :=
      if o.antialias = ANTIALIAS_DEFAULT then s.antialias else o.antialias
    subpixel_order :=
      if o.subpixel_order = SUBPIXEL_ORDER_DEFAULT then s.subpixel_order
      else o.subpixel_order
    hint_style :=
      if o.hint_style = HINT_STYLE_DEFAULT then s.hint_style else o.hint_style
    hint_metrics :=
      if o.hint_metrics = HINT_METRICS_DEFAULT then s.hint_metrics
      else o.hint_metrics
    variations :=
      match o.variations with
      | none => s.variations
      | some v => some v }

/-- Foreign `cairo_font_options_merge` acting on the heap: store into `self`
the merge of its state with the state of `other`. -/
def cairo_font_options_merge (H : FOHeap) (self other : Nat) : FOHeap :=
  ⟨H.next,
   fun j => if j = self then mergeState (H.store self) (H.store other)
            else H.store j⟩

/-- Foreign `cairo_font_options_set_antialias` acting on the heap. -/
def cairo_font_options_set_antialias (H : FOHeap) (h v : Nat) : FOHeap :=
  ⟨H.next,
   fun j => if j = h then { H.store h with antialias := v } else H.store j⟩

/-- Foreign `cairo_font_options_set_variations` acting on the heap: the null
sentinel clears variations, otherwise cairo copies the NUL-terminated
string. -/
def cairo_font_options_set_variations (H : FOHeap) (h : Nat)
    (v : Option (List Nat)) : FOHeap :=
  ⟨H.next,
   fun j => if j = h then
      { H.store h with variations := v.map cString }
    else H.store j⟩

/-- Embedding of `FontOptions.__init__` with no keyword values: create a
fresh handle, then `_init_pointer` (attach the destroy guard, check the
handle status). -/
def FontOptions.create (H : FOHeap) : FOHeap × Nat × List Ev :=
  let r := cairo_font_options_create H
  (r.1, r.2,
   [Ev.call "cairo_font_options_create" true,
    Ev.attachGuard "cairo_font_options_destroy",
    Ev.check (cairo_font_options_status r.2)])

/-- Embedding of `FontOptions.copy`: duplicate the backing handle through the
foreign copy call, then `_init_pointer` on the fresh handle (attach the
destroy guard, check status). -/
def FontOptions.copy (H : FOHeap) (h : Nat) : FOHeap × Nat × List Ev :=
  let r := cairo_font_options_copy H h
  (r.1, r.2,
   [Ev.call "cairo_font_options_copy" true,
    Ev.attachGuard "cairo_font_options_destroy",
    Ev.check (cairo_font_options_status r.2)])

/-- Embedding of `FontOptions.merge`: foreign merge into `self`, then an
explicit status check of `self`. -/
def FontOptions.merge (H : FOHeap) (self other : Nat) : FOHeap × List Ev :=
  (cairo_font_options_merge H self other,
   [Ev.call "cairo_font_options_merge" true,
    Ev.check (cairo_font_options_status self)])

/-- Embedding of `FontOptions.set_antialias`: foreign set call, then a status
check of `self`. -/
def FontOptions.set_antialias (H : FOHeap) (h v : Nat) : FOHeap × List Ev :=
  (cairo_font_options_set_antialias H h v,
   [Ev.call "cairo_font_options_set_antialias" true,
    Ev.check (cairo_font_options_status h)])

/-- Embedding of `FontOptions.set_variations`: `None` is passed as the null
sentinel, any text is encoded through `_encode_string`; then the foreign set
call and a status check. -/
def FontOptions.set_variations (H : FOHeap) (h : Nat)
    (variations : Option PyText) : FOHeap × List Ev :=
  let varg : Option (List Nat) := variations.map _encode_string
  (cairo_font_options_set_variations H h varg,
   [Ev.call "cairo_font_options_set_variations" true,
    Ev.check (cairo_font_options_status h)])

/-- Embedding of `FontOptions.__eq__`: delegate to the foreign comparison of
the two backing handles. -/
def FontOptions.equal (H : FOHeap) (a b : Nat) : Bool :=
  cairo_font_options_equal H a b

/-- Embedding of `FontOptions.__hash__`: delegate to the foreign hash of the
backing handle; the foreign hash is a pure function `hashFn` of the full
stored option state, kept abstract. -/
def FontOptions.hash (hashFn : FontOptionsState → Nat) (H : FOHeap)
    (h : Nat) : Nat :=
  hashFn (H.store h)

/-- Embedding of `ScaledFont.get_font_options`: build a fresh `FontOptions()`
(whose `_init_pointer` checks the status of the fresh handle), then let the
foreign call write the options of the scaled font into that handle, and
return it.
No status check of any kind follows the foreign write. -/
def ScaledFont.get_font_options (m : CairoModel) (H : FOHeap) (sf : Nat) :
    FOHeap × Nat × List Ev :=
  let r := FontOptions.create H
  let fo := r.2.1
  let H2 : FOHeap :=
    ⟨r.1.next,
     fun j => if j = fo then m.cairo_scaled_font_get_font_options sf
              else r.1.store j⟩
  (H2, fo,
   r.2.2 ++ [Ev.call "cairo_scaled_font_get_font_options" true])

/-- Embedding of `ScaledFont.text_extents`: encode the text, invoke the
foreign metrics query (which writes through the caller-allocated extents
out-pointer and consumes the NUL-terminated string), check the status of the
scaled font, and return the six floats as a tuple. -/
def ScaledFont.text_extents (m : CairoModel) (sf : Nat) (text : PyText) :
    List Ev × Except PyError (Int × Int × Int × Int × Int × Int) :=
  let e := m.cairo_scaled_font_text_extents sf (cString (_encode_string text))
  let st := m.cairo_scaled_font_status sf
  ([Ev.call "cairo_scaled_font_text_extents" true, Ev.check st],
   if st = STATUS_SUCCESS then
     Except.ok (e.x_bearing, e.y_bearing, e.width, e.height,
                e.x_advance, e.y_advance)
   else Except.error (PyError.cairoError st))

/-- Nullity of one output argument of the foreign shaping call: the null
sentinel or an allocated out-slot. -/
inductive Slot where
  | null
  | allocated
deriving DecidableEq

/-- The arguments the binding passes to the one invocation of
`cairo_scaled_font_text_to_glyphs`: positions, the encoded byte string, the
length argument, and the nullity of each of the five output arguments. -/
structure ShapingArgs where
  x : Int
  y : Int
  bytes : List Nat
  length : Int
  glyphs_slot : Slot
  num_glyphs_slot : Slot
  clusters_slot : Slot
  num_clusters_slot : Slot
  cluster_flags_slot : Slot
deriving DecidableEq

/-- The bytes the foreign shaper consumes for a byte buffer and a length
argument: `-1` means "length unknown, scan for the NUL terminator". -/
def shapedBytes (bytes : List Nat) (length : Int) : List Nat :=
  if length = -1 then cString bytes else bytes.take length.toNat

/-- Value returned by `text_to_glyphs`: the glyph list alone, or the
glyph list with the cluster list and the cluster flags. -/
inductive TextToGlyphsRet where
  | glyphsOnly (glyphs : List (Nat × Int × Int))
  | withClusters (glyphs : List (Nat × Int × Int))
      (clusters : List (Nat × Nat)) (flags : Nat)
deriving DecidableEq

/-- Embedding of `ScaledFont.text_to_glyphs`.  Allocates the glyph out-slots;
allocates the cluster out-slots only when `with_clusters` is true, passing
the null sentinel for all three cluster arguments otherwise; invokes the
foreign shaping call on the encoded text with length `-1` (the foreign
library then consumes only up to the first NUL byte, `shapedBytes`); attaches
the glyph-array guard (deallocator `cairo_glyph_free`) and, when clusters
were requested, the cluster-array guard (deallocator
`cairo_text_cluster_free`) before translating the returned status; on
success copies, for the counts reported by the call, each glyph into an
owned `(id, x, y)` triple and each cluster into an owned
`(byte_count, glyph_count)` pair.  Returns the arguments passed to the
foreign call, the event trace, and the Python-level outcome. -/
def ScaledFont.text_to_glyphs (m : CairoModel) (sf : Nat) (x y : Int)
    (text : PyText) (with_clusters : Bool) :
    ShapingArgs × List Ev × Except PyError TextToGlyphsRet :=
  let bytes := _encode_string text
  let cslot : Slot := if with_clusters then Slot.allocated else Slot.null
  let args : ShapingArgs :=
    ⟨x, y, bytes, -1, Slot.allocated, Slot.allocated, cslot, cslot, cslot⟩
  let out := m.cairo_scaled_font_text_to_glyphs sf x y
    (shapedBytes bytes (-1)) with_clusters
  let tr : List Ev :=
    Ev.call "cairo_scaled_font_text_to_glyphs" true ::
    Ev.attachGuard "cairo_glyph_free" ::
    (if with_clusters then
       [Ev.attachGuard "cairo_text_cluster_free", Ev.check out.status]
     else [Ev.check out.status])
  let res : Except PyError TextToGlyphsRet :=
    if out.status = STATUS_SUCCESS then
      let glyphs : List (Nat × Int × Int) :=
        (List.range out.numGlyphs).map (fun i =>
          let g := out.glyphBuf.getD i ⟨0, 0, 0⟩
          (g.index, g.x, g.y))
      if with_clusters then
        let clusters : List (Nat × Nat) :=
          (List.range out.numClusters).map (fun i =>
            let c := out.clusterBuf.getD i ⟨0, 0⟩
            (c.num_bytes, c.num_glyphs))
        Except.ok (TextToGlyphsRet.withClusters glyphs clusters
          out.clusterFlags)
      else
        Except.ok (TextToGlyphsRet.glyphsOnly glyphs)
    else Except.error (PyError.cairoError out.status)
  (args, tr, res)

/-- Reading a C string twice is reading it once: the scan result contains no
NUL byte. -/
theorem cString_cString (b : List Nat) : cString (cString b) = cString b :=
  List.takeWhile_idem

/-- Concrete cairo model used to instantiate the general theorems on
explicit inputs: handle 2 carries the toy type tag, every other handle an
unregistered tag 7; all statuses succeed; shaping yields one glyph and one
cluster. -/
def demoModel : CairoModel where
  cairo_font_face_get_type := fun h => if h = 2 then FONT_TYPE_TOY else 7
  cairo_font_face_status := fun _ => STATUS_SUCCESS
  cairo_scaled_font_status := fun _ => STATUS_SUCCESS
  cairo_toy_font_face_create := fun _ _ _ => 3
  cairo_scaled_font_text_to_glyphs := fun _ _ _ _ _ =>
    { status := STATUS_SUCCESS, glyphBuf := [⟨65, 0, 0⟩], numGlyphs := 1,
      clusterBuf := [⟨1, 1⟩], numClusters := 1, clusterFlags := 0 }
  cairo_scaled_font_text_extents := fun _ _ => ⟨0, 0, 0, 0, 0, 0⟩
  cairo_scaled_font_get_font_options := fun _ => {}

/-- Concrete cairo model whose shaping call fails with status 11
(`CAIRO_STATUS_INVALID_STRING`). -/
def failModel : CairoModel :=
  { demoModel with
    cairo_scaled_font_text_to_glyphs := fun _ _ _ _ _ =>
      { status := 11, glyphBuf := [], numGlyphs := 0,
        clusterBuf := [], numClusters := 0, clusterFlags := 0 } }

/-- Concrete font-options heap with one live handle 0 in the default
state. -/
def demoHeap : FOHeap := ⟨1, fun _ => {}⟩

/-- C1: for the null sentinel handle and both ownership modes, both
`FontFace._from_pointer` and `ScaledFont._from_pointer` fail with the
`NullHandleError` (`ValueError("Null pointer")`), make no foreign call
(empty trace, in particular no reference-count increment), and produce no
wrapper. -/
theorem null_handle_rejected (m : CairoModel) (incref : Bool) :
    FontFace._from_pointer m NULL incref =
      ([], Except.error (PyError.valueError "Null pointer")) ∧
    ScaledFont._from_pointer m NULL incref =
      ([], Except.error (PyError.valueError "Null pointer")) := by
  constructor <;> rfl

/-- C3: for a non-null handle of successful status whose foreign type tag
has no entry in `FONT_TYPE_TO_CLASS`, `FontFace._from_pointer` returns the
generic base wrapper rather than raising; for a handle whose tag is the
registered `FONT_TYPE_TOY`, it returns the `ToyFontFace` variant. -/
theorem unregistered_tag_gives_base_class (m : CairoModel) (h1 h2 : Nat)
    (incref : Bool)
    (hn1 : h1 ≠ NULL)
    (ht1 : FONT_TYPE_TO_CLASS.lookup (m.cairo_font_face_get_type h1) = none)
    (hs1 : m.cairo_font_face_status h1 = STATUS_SUCCESS)
    (hn2 : h2 ≠ NULL)
    (ht2 : m.cairo_font_face_get_type h2 = FONT_TYPE_TOY)
    (hs2 : m.cairo_font_face_status h2 = STATUS_SUCCESS) :
    (FontFace._from_pointer m h1 incref).2 =
      Except.ok ⟨FontFaceClass.fontFace, h1⟩ ∧
    (FontFace._from_pointer m h2 incref).2 =
      Except.ok ⟨FontFaceClass.toyFontFace, h2⟩ := by
  constructor
  · simp [FontFace._from_pointer, hn1, ht1, hs1]
  · simp [FontFace._from_pointer, hn2, ht2, hs2, FONT_TYPE_TO_CLASS,
      List.lookup]

/-- Witness for C3 at the concrete model: handle 1 carries the unregistered
tag 7, handle 2 the toy tag. -/
theorem unregistered_tag_gives_base_class_witness :
    (FontFace._from_pointer demoModel 1 true).2 =
      Except.ok ⟨FontFaceClass.fontFace, 1⟩ ∧
    (FontFace._from_pointer demoModel 2 true).2 =
      Except.ok ⟨FontFaceClass.toyFontFace, 2⟩ :=
  unregistered_tag_gives_base_class demoModel 1 2 true (by decide) (by decide)
    (by decide) (by decide) (by decide) (by decide)

/-- C2: whenever the foreign shaping call reports a non-success status,
`text_to_glyphs` attaches the glyph-array deallocator guard (and, when
clusters were requested, the cluster-array guard) before the status is
translated, and the status error then propagates to the caller. -/
theorem guards_attached_before_status_error (m : CairoModel) (sf : Nat)
    (x y : Int) (text : PyText) (wc : Bool)
    (hst : (m.cairo_scaled_font_text_to_glyphs sf x y
        (shapedBytes (_encode_string text) (-1)) wc).status ≠ STATUS_SUCCESS) :
    (ScaledFont.text_to_glyphs m sf x y text wc).2.1 =
      Ev.call "cairo_scaled_font_text_to_glyphs" true ::
      Ev.attachGuard "cairo_glyph_free" ::
      (if wc then
         [Ev.attachGuard "cairo_text_cluster_free",
          Ev.check (m.cairo_scaled_font_text_to_glyphs sf x y
            (shapedBytes (_encode_string text) (-1)) wc).status]
       else
         [Ev.check (m.cairo_scaled_font_text_to_glyphs sf x y
           (shapedBytes (_encode_string text) (-1)) wc).status]) ∧
    (ScaledFont.text_to_glyphs m sf x y text wc).2.2 =
      Except.error (PyError.cairoError
        (m.cairo_scaled_font_text_to_glyphs sf x y
          (shapedBytes (_encode_string text) (-1)) wc).status) := by
  constructor
  · rfl
  · simp [ScaledFont.text_to_glyphs, hst]

/-- Witness for C2 at the failing model on text "A" with clusters
requested. -/
theorem guards_attached_before_status_error_witness :
    (ScaledFont.text_to_glyphs failModel 1 0 0 (PyText.str "A") true).2.1 =
      Ev.call "cairo_scaled_font_text_to_glyphs" true ::
      Ev.attachGuard "cairo_glyph_free" ::
      (if true then
         [Ev.attachGuard "cairo_text_cluster_free",
          Ev.check (failModel.cairo_scaled_font_text_to_glyphs 1 0 0
            (shapedBytes (_encode_string (PyText.str "A")) (-1)) true).status]
       else
         [Ev.check (failModel.cairo_scaled_font_text_to_glyphs 1 0 0
           (shapedBytes (_encode_string (PyText.str "A")) (-1)) true).status]) ∧
    (ScaledFont.text_to_glyphs failModel 1 0 0 (PyText.str "A") true).2.2 =
      Except.error (PyError.cairoError
        (failModel.cairo_scaled_font_text_to_glyphs 1 0 0
          (shapedBytes (_encode_string (PyText.str "A")) (-1)) true).status) :=
  guards_attached_before_status_error failModel 1 0 0 (PyText.str "A") true
    (by decide)

/-- C5: with `with_clusters` false, the three cluster-related output
arguments of the foreign shaping call (cluster-array pointer, cluster count,
cluster flags) are all passed as the null sentinel, while the glyph output
slots are allocated. -/
theorem cluster_args_passed_null (m : CairoModel) (sf : Nat) (x y : Int)
    (text : PyText) :
    (ScaledFont.text_to_glyphs m sf x y text false).1.clusters_slot =
      Slot.null ∧
    (ScaledFont.text_to_glyphs m sf x y text false).1.num_clusters_slot =
      Slot.null ∧
    (ScaledFont.text_to_glyphs m sf x y text false).1.cluster_flags_slot =
      Slot.null ∧
    (ScaledFont.text_to_glyphs m sf x y text false).1.glyphs_slot =
      Slot.allocated ∧
    (ScaledFont.text_to_glyphs m sf x y text false).1.num_glyphs_slot =
      Slot.allocated := by
  refine ⟨rfl, rfl, rfl, rfl, rfl⟩

/-- C6: on success, `text_to_glyphs` returns the
`(glyphs, clusters, cluster_flags)` triple when clusters were requested and
the glyph list alone otherwise; the glyphs are owned `(id, x, y)` triples
and the clusters owned `(byte_count, glyph_count)` pairs, copied entry by
entry for exactly the counts the query phase reported. -/
theorem result_shape_on_success (m : CairoModel) (sf : Nat) (x y : Int)
    (text : PyText)
    (h1 : (m.cairo_scaled_font_text_to_glyphs sf x y
        (shapedBytes (_encode_string text) (-1)) true).status =
      STATUS_SUCCESS)
    (h0 : (m.cairo_scaled_font_text_to_glyphs sf x y
        (shapedBytes (_encode_string text) (-1)) false).status =
      STATUS_SUCCESS) :
    (ScaledFont.text_to_glyphs m sf x y text true).2.2 =
      Except.ok (TextToGlyphsRet.withClusters
        ((List.range (m.cairo_scaled_font_text_to_glyphs sf x y
            (shapedBytes (_encode_string text) (-1)) true).numGlyphs).map
          (fun i =>
            let g := (m.cairo_scaled_font_text_to_glyphs sf x y
              (shapedBytes (_encode_string text) (-1)) true).glyphBuf.getD i
              ⟨0, 0, 0⟩
            (g.index, g.x, g.y)))
        ((List.range (m.cairo_scaled_font_text_to_glyphs sf x y
            (shapedBytes (_encode_string text) (-1)) true).numClusters).map
          (fun i =>
            let c := (m.cairo_scaled_font_text_to_glyphs sf x y
              (shapedBytes (_encode_string text) (-1)) true).clusterBuf.getD i
              ⟨0, 0⟩
            (c.num_bytes, c.num_glyphs)))
        (m.cairo_scaled_font_text_to_glyphs sf x y
          (shapedBytes (_encode_string text) (-1)) true).clusterFlags) ∧
    (ScaledFont.text_to_glyphs m sf x y text false).2.2 =
      Except.ok (TextToGlyphsRet.glyphsOnly
        ((List.range (m.cairo_scaled_font_text_to_glyphs sf x y
            (shapedBytes (_encode_string text) (-1)) false).numGlyphs).map
          (fun i =>
            let g := (m.cairo_scaled_font_text_to_glyphs sf x y
              (shapedBytes (_encode_string text) (-1)) false).glyphBuf.getD i
              ⟨0, 0, 0⟩
            (g.index, g.x, g.y)))) := by
  constructor
  · simp [ScaledFont.text_to_glyphs, h1]
  · simp [ScaledFont.text_to_glyphs, h0]

/-- Witness for C6 at the concrete one-glyph model on text "A". -/
theorem result_shape_on_success_witness :
    (ScaledFont.text_to_glyphs demoModel 1 0 0 (PyText.str "A") true).2.2 =
      Except.ok (TextToGlyphsRet.withClusters [(65, 0, 0)] [(1, 1)] 0) ∧
    (ScaledFont.text_to_glyphs demoModel 1 0 0 (PyText.str "A") false).2.2 =
      Except.ok (TextToGlyphsRet.glyphsOnly [(65, 0, 0)]) := by
  have h := result_shape_on_success demoModel 1 0 0 (PyText.str "A")
    (by decide) (by decide)
  exact ⟨h.1.trans (by rfl), h.2.trans (by rfl)⟩

/-- C8: `text_to_glyphs` passes the encoded UTF-8 bytes of its text and the
scan-for-terminator length sentinel `-1` to the foreign shaping call; hence
for every text whose encoding contains an embedded NUL byte, the outcome is
exactly the outcome for the prefix before the first NUL — the truncation is
silent, no error distinguishes the two. -/
theorem embedded_nul_truncated (m : CairoModel) (sf : Nat) (x y : Int)
    (text : PyText) (wc : Bool)
    (_hnul : 0 ∈ _encode_string text) :
    (ScaledFont.text_to_glyphs m sf x y text wc).1.bytes =
      _encode_string text ∧
    (ScaledFont.text_to_glyphs m sf x y text wc).1.length = -1 ∧
    (ScaledFont.text_to_glyphs m sf x y text wc).2.2 =
      (ScaledFont.text_to_glyphs m sf x y
        (PyText.bytes (cString (_encode_string text))) wc).2.2 := by
  refine ⟨rfl, rfl, ?_⟩
  have hb : shapedBytes (_encode_string
      (PyText.bytes (cString (_encode_string text)))) (-1) =
      shapedBytes (_encode_string text) (-1) := by
    simp [shapedBytes, _encode_string, cString_cString]
  simp only [ScaledFont.text_to_glyphs, hb]

/-- Witness for C8 on the text "a\x00b", whose UTF-8 encoding
`[97, 0, 98]` contains an embedded NUL byte. -/
theorem embedded_nul_truncated_witness :
    (ScaledFont.text_to_glyphs demoModel 1 0 0 (PyText.str "a\x00b")
      true).1.bytes = _encode_string (PyText.str "a\x00b") ∧
    (ScaledFont.text_to_glyphs demoModel 1 0 0 (PyText.str "a\x00b")
      true).1.length = -1 ∧
    (ScaledFont.text_to_glyphs demoModel 1 0 0 (PyText.str "a\x00b")
      true).2.2 =
      (ScaledFont.text_to_glyphs demoModel 1 0 0
        (PyText.bytes (cString (_encode_string (PyText.str "a\x00b"))))
        true).2.2 :=
  embedded_nul_truncated demoModel 1 0 0 (PyText.str "a\x00b") true (by decide)

/-- C10: every embedded text-taking operation accepts a Unicode string or a
byte string; byte strings are forwarded unchanged by `_encode_string`, so
passing a Unicode string `s` is indistinguishable from passing its UTF-8
encoding: toy-font-face construction, `text_extents`, `text_to_glyphs` and
`set_variations` give identical outcomes for the two. -/
theorem unicode_equals_utf8_bytes (m : CairoModel) (H : FOHeap)
    (sf h slant weight : Nat) (x y : Int) (wc : Bool) (s : String)
    (b : List Nat) :
    _encode_string (PyText.bytes b) = b ∧
    _encode_string (PyText.str s) = utf8Bytes s ∧
    ToyFontFace.init m (PyText.str s) slant weight =
      ToyFontFace.init m (PyText.bytes (utf8Bytes s)) slant weight ∧
    ScaledFont.text_extents m sf (PyText.str s) =
      ScaledFont.text_extents m sf (PyText.bytes (utf8Bytes s)) ∧
    ScaledFont.text_to_glyphs m sf x y (PyText.str s) wc =
      ScaledFont.text_to_glyphs m sf x y (PyText.bytes (utf8Bytes s)) wc ∧
    FontOptions.set_variations H h (some (PyText.str s)) =
      FontOptions.set_variations H h (some (PyText.bytes (utf8Bytes s))) := by
  refine ⟨rfl, rfl, rfl, rfl, rfl, rfl⟩

/-- Heap for the merge counterexample: handle 1 holds an explicitly set
antialias (`BEST`), handle 2 a different explicitly set antialias
(`GOOD`). -/
def mergeHeap : FOHeap :=
  ⟨3, fun j =>
    if j = 1 then { antialias := ANTIALIAS_BEST }
    else if j = 2 then { antialias := ANTIALIAS_GOOD }
    else {}⟩

/-- C4 counterexample: with `a` (handle 1) holding the explicitly set
antialias `BEST` and `b` (handle 2) holding the explicitly set antialias
`GOOD`, the call `a.merge(b)` overwrites the antialias of `a` with `GOOD`,
so a field
already explicitly set in `a` is not left untouched, contradicting the
claim. -/
theorem merge_overwrites_set_field :
    (mergeHeap.store 1).antialias = ANTIALIAS_BEST ∧
    ANTIALIAS_BEST ≠ ANTIALIAS_DEFAULT ∧
    (mergeHeap.store 2).antialias = ANTIALIAS_GOOD ∧
    ((FontOptions.merge mergeHeap 1 2).1.store 1).antialias =
      ANTIALIAS_GOOD ∧
    ANTIALIAS_GOOD ≠ ANTIALIAS_BEST := by
  decide

/-- C4 amended: `merge(other)` is an in-place directional overlay driven by
`other`: each field of `self` for which `other` holds its default/unset
value is left untouched, and each field for which `other` holds a
non-default value is overwritten with the value from `other` (even when the
field of `self` was explicitly set).  The operation is still not commutative: with
antialias `BEST` against antialias `GOOD` the two merge orders give
different states, and the example given by the spec still holds: merging a
default `b` into `a` at `BEST` leaves `BEST`, merging `a` into a default
`b` sets `BEST`. -/
theorem merge_directional_overlay (H : FOHeap) (a b : Nat) :
    ((FontOptions.merge H a b).1.store a).antialias =
      (if (H.store b).antialias = ANTIALIAS_DEFAULT then
        (H.store a).antialias else (H.store b).antialias) ∧
    ((FontOptions.merge H a b).1.store a).subpixel_order =
      (if (H.store b).subpixel_order = SUBPIXEL_ORDER_DEFAULT then
        (H.store a).subpixel_order else (H.store b).subpixel_order) ∧
    ((FontOptions.merge H a b).1.store a).hint_style =
      (if (H.store b).hint_style = HINT_STYLE_DEFAULT then
        (H.store a).hint_style else (H.store b).hint_style) ∧
    ((FontOptions.merge H a b).1.store a).hint_metrics =
      (if (H.store b).hint_metrics = HINT_METRICS_DEFAULT then
        (H.store a).hint_metrics else (H.store b).hint_metrics) ∧
    mergeState { antialias := ANTIALIAS_BEST } {} =
      { antialias := ANTIALIAS_BEST } ∧
    mergeState {} { antialias := ANTIALIAS_BEST } =
      { antialias := ANTIALIAS_BEST } ∧
    mergeState { antialias := ANTIALIAS_BEST }
        { antialias := ANTIALIAS_GOOD } ≠
      mergeState { antialias := ANTIALIAS_GOOD }
        { antialias := ANTIALIAS_BEST } := by
  refine ⟨?_, ?_, ?_, ?_, by decide, by decide, by decide⟩ <;>
    simp [FontOptions.merge, cairo_font_options_merge, mergeState]

/-- C7 counterexample: in `ScaledFont.get_font_options` the mutating foreign
write `cairo_scaled_font_get_font_options` into the freshly created
`FontOptions` handle is not followed by any status check before the result
is returned, so not every mutating foreign call of the binding is followed
by a status check. -/
theorem get_font_options_write_unchecked :
    allMutatingChecked
      (ScaledFont.get_font_options demoModel demoHeap 5).2.2 = false := by
  decide

/-- C7 amended: in every embedded binding operation other than
`ScaledFont.get_font_options`, every mutating foreign call is followed by a
status check before the operation returns; in
`ScaledFont.get_font_options`, the only status check precedes the mutating
write (it belongs to the `FontOptions()` construction) and the write itself
is never checked. -/
theorem mutating_calls_checked_except_get_font_options (m : CairoModel)
    (H : FOHeap) (sf h other v p slant weight : Nat) (x y : Int)
    (text : PyText) (vr : Option PyText) (wc incref : Bool) :
    allMutatingChecked (FontOptions.create H).2.2 = true ∧
    allMutatingChecked (FontOptions.copy H h).2.2 = true ∧
    allMutatingChecked (FontOptions.merge H h other).2 = true ∧
    allMutatingChecked (FontOptions.set_antialias H h v).2 = true ∧
    allMutatingChecked (FontOptions.set_variations H h vr).2 = true ∧
    allMutatingChecked (ToyFontFace.init m text slant weight).1 = true ∧
    allMutatingChecked (ScaledFont.text_extents m sf text).1 = true ∧
    allMutatingChecked (ScaledFont.text_to_glyphs m sf x y text wc).2.1 =
      true ∧
    allMutatingChecked (FontFace._from_pointer m p incref).1 = true ∧
    allMutatingChecked (ScaledFont._from_pointer m p incref).1 = true ∧
    allMutatingChecked (ScaledFont.get_font_options m H sf).2.2 = false := by
  refine ⟨rfl, rfl, rfl, rfl, rfl, rfl, rfl, ?_, ?_, ?_, rfl⟩
  · cases wc <;> rfl
  · by_cases hp : p = NULL <;>
      cases incref <;>
        simp [FontFace._from_pointer, hp, allMutatingChecked, Ev.isCheck]
  · by_cases hp : p = NULL <;>
      cases incref <;>
        simp [ScaledFont._from_pointer, hp, allMutatingChecked, Ev.isCheck]

/-- C9: `FontOptions.copy` duplicates the backing handle into a fresh,
independent handle (distinct from the source), and the copy compares equal
to the source under the foreign comparison and has the same foreign hash,
for any hash function of the stored state. -/
theorem copy_equal_and_same_hash (H : FOHeap) (h : Nat)
    (hashFn : FontOptionsState → Nat) (hv : h < H.next) :
    (FontOptions.copy H h).2.1 ≠ h ∧
    FontOptions.equal (FontOptions.copy H h).1 (FontOptions.copy H h).2.1 h =
      true ∧
    FontOptions.hash hashFn (FontOptions.copy H h).1
        (FontOptions.copy H h).2.1 =
      FontOptions.hash hashFn (FontOptions.copy H h).1 h := by
  have hne : h ≠ H.next := Nat.ne_of_lt hv
  refine ⟨fun hc => hne hc.symm, ?_, ?_⟩
  · simp [FontOptions.equal, cairo_font_options_equal, FontOptions.copy,
      cairo_font_options_copy, hne]
  · simp [FontOptions.hash, FontOptions.copy, cairo_font_options_copy, hne]

/-- Witness for C9 at the concrete heap with live handle 0 and the
projection to the antialias field as hash function. -/
theorem copy_equal_and_same_hash_witness :
    (FontOptions.copy demoHeap 0).2.1 ≠ 0 ∧
    FontOptions.equal (FontOptions.copy demoHeap 0).1
      (FontOptions.copy demoHeap 0).2.1 0 = true ∧
    FontOptions.hash (fun s => s.antialias) (FontOptions.copy demoHeap 0).1
        (FontOptions.copy demoHeap 0).2.1 =
      FontOptions.hash (fun s => s.antialias) (FontOptions.copy demoHeap 0).1
        0 :=
  copy_equal_and_same_hash demoHeap 0 (fun s => s.antialias) (by decide)
